import Mathlib

/-!
# Verification of the toniebox-api-go client library

A shallow embedding of the Go client for the Toniebox cloud API.
HTTP exchanges are modelled by passing the network's answer to each
operation as an explicit argument (an oracle of type
`Except String HttpResponse`: a transport failure message or a received
response), and JSON decoding is modelled by an explicit decoder function
`String → Option α` (the decoder the operation would run on the body).
The mutable state of the Go `requestHandler` (the stored JWT token) is
passed and returned explicitly.  A Go nil-pointer dereference (a panic)
is modelled by returning `none` from an `Option`-valued operation.

Go `float64` fields (`Seconds`, `SecondsPresent`, `SecondsRemaining`) are
carried opaquely by the library (copied, compared and serialized, never
computed with), so they are modelled as `Int` values carried opaquely.
-/

namespace TonieboxAPI

/-- An HTTP response as received from the network: status code and raw body. -/
structure HttpResponse where
  StatusCode : Nat
  Body : String
deriving DecidableEq

/-- The JWT token object decoded from the identity endpoint
(Go struct `JWTToken`, fields `access_token`, `expires_in`,
`refresh_token`, `token_type`, `scope`). -/
structure JWTToken where
  AccessToken : String
  ExpiresIn : Int
  RefreshToken : String
  TokenType : String
  Scope : String
deriving DecidableEq

/-- The request handler's mutable state (Go struct `requestHandler`).
The embedded `http.Client` (timeout, optional proxy) produces the network
results that arrive as oracle arguments, so only the stored token is state. -/
structure RequestHandler where
  jwtToken : Option JWTToken
deriving DecidableEq

/-- Login credentials (Go struct `Login`). -/
structure Login where
  Email : String
  Password : String
deriving DecidableEq

/-- A chapter on a Creative-Tonie (Go struct `Chapter`). -/
structure Chapter where
  ID : String
  File : String
  Title : String
  Seconds : Int
  Transcoding : Bool
deriving DecidableEq

/-- A household (Go struct `Household`). -/
structure Household where
  ID : String
  Name : String
  Image : String
  ForeignCreativeTonieContent : Bool
  Access : String
  CanLeave : Bool
  OwnerName : String
deriving DecidableEq

/-- A Creative-Tonie (Go struct `CreativeTonie`).  The last two fields carry
the Go back-reference pointers (`household *Household`,
`requestHandler *requestHandler`, both tagged with a dash so they are not
serialized); a nil pointer is `none`. -/
structure CreativeTonie where
  ID : String
  Name : String
  Live : Bool
  Private : Bool
  ImageURL : String
  TranscodingErrors : List String
  Transcoding : Bool
  SecondsPresent : Int
  SecondsRemaining : Int
  ChaptersPresent : Int
  ChaptersRemaining : Int
  Chapters : List Chapter
  HouseholdID : String
  household : Option Household
  requestHandler : Option RequestHandler
deriving DecidableEq

/-- Amazon S3 upload form fields (Go struct `FieldsBean`). -/
structure FieldsBean where
  Key : String
  Policy : String
  XAmzAlgorithm : String
  XAmzCredential : String
  XAmzDate : String
  XAmzSignature : String
  XAmzSecurityToken : String
deriving DecidableEq

/-- Amazon S3 upload request details (Go struct `RequestBean`). -/
structure RequestBean where
  URL : String
  Fields : FieldsBean
deriving DecidableEq

/-- The upload ticket decoded in upload step 1 (Go struct `AmazonBean`). -/
structure AmazonBean where
  FileID : String
  Request : RequestBean
deriving DecidableEq

/-! ## Endpoint and header constants (Go file of package constants) -/

def openIDConnect : String :=
  "https://login.tonies.com/auth/realms/tonies/protocol/openid-connect/token"

def creativeTonies (householdID : String) : String :=
  "https://api.tonie.cloud/v2/households/" ++ householdID ++ "/creativetonies"

def creativeTonie (householdID tonieID : String) : String :=
  "https://api.tonie.cloud/v2/households/" ++ householdID ++ "/creativetonies/" ++ tonieID

def session : String := "https://api.tonie.cloud/v2/sessions"

def fileUpload : String := "https://api.tonie.cloud/v2/file"

def fileUploadAmazon : String := "https://bxn-toniecloud-prod-upload.s3.amazonaws.com/"

def contentTypeJSON : String := "application/json"

def contentTypeForm : String := "application/x-www-form-urlencoded"

def grantTypePassword : String := "password"

def clientID : String := "my-tonies"

def scopeOpenID : String := "openid"

/-! ## JSON values, request bodies, sent requests, errors -/

/-- A JSON value, the model of what `encoding/json` produces. -/
inductive Json where
  | str (s : String)
  | num (n : Int)
  | bool (b : Bool)
  | arr (xs : List Json)
  | obj (fields : List (String × Json))

/-- The multipart/form-data body built in upload step 2: the ordered list of
plain form fields, then one file part (form-field name, file name, content). -/
structure MultipartForm where
  formFields : List (String × String)
  filePartName : String
  filePartFileName : String
  filePartContent : List Nat

/-- The body attached to an outgoing HTTP request. -/
inductive RequestBody where
  | empty
  | str (s : String)
  | formURLEncoded (kvs : List (String × String))
  | json (j : Json)
  | multipart (m : MultipartForm)

inductive HttpMethod where
  | get
  | post
  | patch
  | delete
deriving DecidableEq

/-- An HTTP request as built and handed to `client.Do`. -/
structure SentRequest where
  method : HttpMethod
  url : String
  headers : List (String × String)
  body : RequestBody

/-- The errors the Go functions return (each `fmt.Errorf` shape is one
constructor; `statusError` keeps the numeric status and raw body that the
format string embeds into the message). -/
inductive ApiError where
  | requestFailed (msg : String)
  | statusError (msgHead : String) (status : Nat) (body : String)
  | decodeError (msg : String)
  | openFileError (msg : String)
  | initError (msg : String)
deriving DecidableEq

/-- The rendered message of an error, following the Go format strings
(for a status error, "<head> <status>: <body>"). -/
def ApiError.message : ApiError → String
  | .requestFailed m => m
  | .statusError h s b => h ++ " " ++ toString s ++ ": " ++ b
  | .decodeError m => m
  | .openFileError m => m
  | .initError m => m

/-- Whether an operation result is an error. -/
def exIsErr : Except ApiError α → Bool
  | .error _ => true
  | .ok _ => false

/-! ## Authenticated request executors (Go `executeGetRequest`,
`executePatchRequest`) -/

/-- The GET request built by `executeGetRequest`: the bearer header is
attached only when a token is stored. -/
def getRequest (rh : RequestHandler) (url : String) : SentRequest :=
  { method := .get, url := url,
    headers :=
      (match rh.jwtToken with
       | some tok => [("Authorization", "Bearer " ++ tok.AccessToken)]
       | none => []),
    body := .empty }

/-- The PATCH request built by `executePatchRequest`: JSON content type,
bearer header attached only when a token is stored. -/
def patchRequest (rh : RequestHandler) (url : String) (body : Json) : SentRequest :=
  { method := .patch, url := url,
    headers :=
      ("Content-Type", contentTypeJSON) ::
      (match rh.jwtToken with
       | some tok => [("Authorization", "Bearer " ++ tok.AccessToken)]
       | none => []),
    body := .json body }

/-- Function executeGetRequest: builds a GET request, attaching the bearer header
only when a token is stored; a non-200 status is an error carrying status
and body; a 200 body that fails to decode is a decode error.  Returns the
(unchanged) handler state, the request handed to `client.Do`, and the
result. -/
def executeGetRequest (rh : RequestHandler) (url : String)
    (net : Except String HttpResponse) (decode : String → Option α) :
    RequestHandler × SentRequest × Except ApiError α :=
  let req : SentRequest := getRequest rh url
  match net with
  | .error m => (rh, req, .error (.requestFailed ("request failed: " ++ m)))
  | .ok resp =>
    if resp.StatusCode ≠ 200 then
      (rh, req, .error (.statusError "request failed with status" resp.StatusCode resp.Body))
    else
      match decode resp.Body with
      | none => (rh, req, .error (.decodeError "failed to decode response"))
      | some a => (rh, req, .ok a)

/-- Function executePatchRequest: builds a PATCH request with a JSON content type,
attaching the bearer header only when a token is stored; 200 and 204 are
success, anything else is an error carrying status and body; no response
body is decoded. -/
def executePatchRequest (rh : RequestHandler) (url : String) (body : Json)
    (net : Except String HttpResponse) :
    RequestHandler × SentRequest × Except ApiError Unit :=
  let req : SentRequest := patchRequest rh url body
  match net with
  | .error m => (rh, req, .error (.requestFailed ("request failed: " ++ m)))
  | .ok resp =>
    if resp.StatusCode ≠ 200 ∧ resp.StatusCode ≠ 204 then
      (rh, req, .error (.statusError "request failed with status" resp.StatusCode resp.Body))
    else (rh, req, .ok ())

/-! ## Login and disconnect (Go `login`, `disconnect`) -/

/-- The POST request `login` sends to the identity endpoint: a
form-encoded password grant. -/
def loginRequest (loginData : Login) : SentRequest :=
  { method := .post, url := openIDConnect,
    headers := [("Content-Type", contentTypeForm)],
    body := .formURLEncoded
      [("grant_type", grantTypePassword), ("client_id", clientID),
       ("scope", scopeOpenID), ("username", loginData.Email),
       ("password", loginData.Password)] }

/-- Function login: POSTs the form-encoded password grant to the identity endpoint;
on a 200 response whose body decodes to a token, stores that token
(replacing any previous one); otherwise leaves the state unchanged and
returns an error. -/
def login (rh : RequestHandler) (loginData : Login)
    (net : Except String HttpResponse) (decode : String → Option JWTToken) :
    RequestHandler × SentRequest × Except ApiError Unit :=
  let req : SentRequest := loginRequest loginData
  match net with
  | .error m => (rh, req, .error (.requestFailed ("login request failed: " ++ m)))
  | .ok resp =>
    if resp.StatusCode ≠ 200 then
      (rh, req, .error (.statusError "login failed with status" resp.StatusCode resp.Body))
    else
      match decode resp.Body with
      | none => (rh, req, .error (.decodeError "failed to decode token"))
      | some token => ({ rh with jwtToken := some token }, req, .ok ())

/-- The DELETE request `disconnect` sends to the session endpoint: the
bearer header is attached only when a token is stored. -/
def disconnectRequest (rh : RequestHandler) : SentRequest :=
  { method := .delete, url := session,
    headers :=
      (match rh.jwtToken with
       | some tok => [("Authorization", "Bearer " ++ tok.AccessToken)]
       | none => []),
    body := .empty }

/-- Function disconnect: DELETE on the session endpoint, attaching the bearer
header only when a token is stored; 200 and 204 are success. -/
def disconnect (rh : RequestHandler) (net : Except String HttpResponse) :
    RequestHandler × SentRequest × Except ApiError Unit :=
  let req : SentRequest := disconnectRequest rh
  match net with
  | .error m => (rh, req, .error (.requestFailed ("disconnect request failed: " ++ m)))
  | .ok resp =>
    if resp.StatusCode ≠ 200 ∧ resp.StatusCode ≠ 204 then
      (rh, req, .error (.statusError "disconnect failed with status" resp.StatusCode resp.Body))
    else (rh, req, .ok ())

/-! ## Upload sequencer (Go `uploadFile`) -/

/-- The external effects consumed by one run of `uploadFile`: the network
answer to the step-1 credential POST, the JSON decoder for its body, the
result of `os.Open` on the given path (the file's content as bytes, or an
open error), and the network answer to the step-2 object-storage POST. -/
structure UploadEnv where
  credentialNet : Except String HttpResponse
  decodeBean : String → Option AmazonBean
  openFile : String → Except String (List Nat)
  s3Net : Except String HttpResponse

/-- Upload step 2's multipart form: the ticket's seven signed-policy fields
written in the source's fixed `WriteField` order, then the file content
under a form field named "file" (with the ticket key as file name).
Writing into the in-memory `bytes.Buffer` cannot fail, so the build is
total. -/
def buildUploadForm (fields : FieldsBean) (fileContent : List Nat) : MultipartForm :=
  { formFields :=
      [("key", fields.Key),
       ("x-amz-algorithm", fields.XAmzAlgorithm),
       ("x-amz-credential", fields.XAmzCredential),
       ("x-amz-date", fields.XAmzDate),
       ("policy", fields.Policy),
       ("x-amz-signature", fields.XAmzSignature),
       ("x-amz-security-token", fields.XAmzSecurityToken)],
    filePartName := "file",
    filePartFileName := fields.Key,
    filePartContent := fileContent }

/-- The step-1 credential POST of `uploadFile`: the bearer header is built
from the given token (the Go code dereferences the stored token pointer
without a nil check before reaching this point). -/
def credentialRequest (tok : JWTToken) : SentRequest :=
  { method := .post, url := fileUpload,
    headers := [("Content-Type", contentTypeJSON),
                ("Authorization", "Bearer " ++ tok.AccessToken)],
    body := .str "\x7b\"headers\":\x7b\x7d\x7d" }

/-- The step-2 object-storage POST of `uploadFile`: carries the multipart
form built from the ticket's fields and the opened file content. -/
def s3Request (amazonBean : AmazonBean) (fileContent : List Nat) : SentRequest :=
  { method := .post, url := fileUploadAmazon,
    headers := [("Content-Type", "multipart/form-data")],
    body := .multipart (buildUploadForm amazonBean.Request.Fields fileContent) }

/-- Function uploadFile: the three-step upload.  Step 1 POSTs an empty-headers JSON
object to the file endpoint — building that request dereferences
`rh.jwtToken` unconditionally, so a missing token is a nil-pointer panic
(`none`), not an error return.  Step 2 opens the file and POSTs the
multipart form to the object-storage endpoint (200/204 accepted).  Step 3
appends the new chapter (ticket key as id, ticket fileId as file, given
title, remaining fields at their Go zero values) to the tonie's chapter
list.  Returns the call result, the final tonie, and the requests handed
to `client.Do`. -/
def uploadFile (rh : RequestHandler) (tonie : CreativeTonie) (filePath title : String)
    (env : UploadEnv) :
    Option (Except ApiError Unit × CreativeTonie × List SentRequest) :=
  match rh.jwtToken with
  | none => none
  | some tok =>
    let credReq : SentRequest := credentialRequest tok
    match env.credentialNet with
    | .error m =>
        some (.error (.requestFailed ("upload request failed: " ++ m)), tonie, [credReq])
    | .ok resp =>
      if resp.StatusCode ≠ 200 then
        some (.error (.statusError "upload request failed with status" resp.StatusCode resp.Body),
              tonie, [credReq])
      else
        match env.decodeBean resp.Body with
        | none => some (.error (.decodeError "failed to decode amazon response"), tonie, [credReq])
        | some amazonBean =>
          match env.openFile filePath with
          | .error m => some (.error (.openFileError ("failed to open file: " ++ m)), tonie, [credReq])
          | .ok fileContent =>
            let s3Req : SentRequest := s3Request amazonBean fileContent
            match env.s3Net with
            | .error m =>
                some (.error (.requestFailed ("S3 upload failed: " ++ m)), tonie, [credReq, s3Req])
            | .ok s3Resp =>
              if s3Resp.StatusCode ≠ 204 ∧ s3Resp.StatusCode ≠ 200 then
                some (.error (.statusError "S3 upload failed with status" s3Resp.StatusCode s3Resp.Body),
                      tonie, [credReq, s3Req])
              else
                some (.ok (),
                      { tonie with Chapters := tonie.Chapters ++
                          [{ ID := amazonBean.Request.Fields.Key,
                             File := amazonBean.FileID,
                             Title := title,
                             Seconds := 0, Transcoding := false }] },
                      [credReq, s3Req])

/-- Step 1 of the upload succeeded: a response was received with status 200
and its body decoded to an upload ticket. -/
def step1Ok (env : UploadEnv) : Bool :=
  match env.credentialNet with
  | .error _ => false
  | .ok resp => resp.StatusCode == 200 && (env.decodeBean resp.Body).isSome

/-- Step 2 of the upload succeeded: the local file opened, and the
object-storage POST received a 204 or 200 response. -/
def step2Ok (env : UploadEnv) (filePath : String) : Bool :=
  (match env.openFile filePath with
   | .error _ => false
   | .ok _ => true) &&
  (match env.s3Net with
   | .error _ => false
   | .ok resp => resp.StatusCode == 204 || resp.StatusCode == 200)

/-! ## JSON serialization of a Creative-Tonie (Go `json.Marshal` with the
struct tags of `Chapter` and `CreativeTonie`) -/

/-- Serialization of a chapter, following the json struct tags. -/
def marshalChapter (c : Chapter) : Json :=
  .obj [("id", .str c.ID), ("file", .str c.File), ("title", .str c.Title),
        ("seconds", .num c.Seconds), ("transcoding", .bool c.Transcoding)]

/-- Serialization of a Creative-Tonie, following the json struct tags: the
thirteen tagged fields in declaration order; the two back-reference fields
are tagged with a dash and never serialized. -/
def marshalTonie (t : CreativeTonie) : Json :=
  .obj [("id", .str t.ID), ("name", .str t.Name), ("live", .bool t.Live),
        ("private", .bool t.Private), ("imageUrl", .str t.ImageURL),
        ("transcodingErrors", .arr (t.TranscodingErrors.map .str)),
        ("transcoding", .bool t.Transcoding),
        ("secondsPresent", .num t.SecondsPresent),
        ("secondsRemaining", .num t.SecondsRemaining),
        ("chaptersPresent", .num t.ChaptersPresent),
        ("chaptersRemaining", .num t.ChaptersRemaining),
        ("chapters", .arr (t.Chapters.map marshalChapter)),
        ("householdId", .str t.HouseholdID)]

/-- The field names of a serialized JSON object. -/
def jsonFieldNames : Json → List String
  | .obj fields => fields.map Prod.fst
  | _ => []

/-- Look up a field of a serialized JSON object. -/
def jsonField (j : Json) (k : String) : Option Json :=
  match j with
  | .obj fields => fields.lookup k
  | _ => none

/-! ## Commit and refresh (Go `commitTonie`, `refreshTonie`) -/

/-- Function commitTonie: marshals the tonie and PATCHes it to the per-entity
endpoint.  Building the URL dereferences `tonie.household`, so a nil
household back-reference is a panic (`none`). -/
def commitTonie (rh : RequestHandler) (tonie : CreativeTonie)
    (net : Except String HttpResponse) :
    Option (RequestHandler × SentRequest × Except ApiError Unit) :=
  match tonie.household with
  | none => none
  | some h => some (executePatchRequest rh (creativeTonie h.ID tonie.ID) (marshalTonie tonie) net)

/-- Function refreshTonie: GETs the per-entity endpoint, decodes a fresh
Creative-Tonie and wires its household and handler back-references.
Building the URL dereferences `tonie.household` (`none` = panic). -/
def refreshTonie (rh : RequestHandler) (tonie : CreativeTonie)
    (net : Except String HttpResponse) (decode : String → Option CreativeTonie) :
    Option (SentRequest × Except ApiError CreativeTonie) :=
  match tonie.household with
  | none => none
  | some h =>
    match executeGetRequest rh (creativeTonie h.ID tonie.ID) net decode with
    | (_, req, .error e) => some (req, .error e)
    | (_, req, .ok result) =>
        some (req, .ok { result with household := some h, requestHandler := some rh })

/-! ## Creative-Tonie instance methods (Go `client.go`) -/

/-- Function FindChapterByTitle: linear scan for the first chapter whose title is
exactly equal to the query; `none` when absent. -/
def FindChapterByTitle (ct : CreativeTonie) (title : String) : Option Chapter :=
  ct.Chapters.find? (fun c => c.Title == title)

/-- Function DeleteChapter: keeps exactly the chapters whose identifier differs
from the given chapter's identifier.  The body performs no handler call,
so the list of requests handed to `client.Do` is empty. -/
def DeleteChapter (ct : CreativeTonie) (chapter : Chapter) :
    CreativeTonie × List SentRequest :=
  ({ ct with Chapters := ct.Chapters.filter (fun c => c.ID != chapter.ID) }, [])

/-- Function UploadFile: fails with an initialization error when the executor
back-reference is nil, otherwise delegates to the upload sequencer. -/
def UploadFile (ct : CreativeTonie) (title filePath : String) (env : UploadEnv) :
    Option (Except ApiError Unit × CreativeTonie × List SentRequest) :=
  match ct.requestHandler with
  | none => some (.error (.initError "tonie not properly initialized"), ct, [])
  | some rh => uploadFile rh ct filePath title env

/-- Function Commit: fails with an initialization error (sending nothing) when the
executor back-reference is nil, otherwise delegates to `commitTonie`.
Returns the call result and the requests handed to `client.Do`. -/
def Commit (ct : CreativeTonie) (net : Except String HttpResponse) :
    Option (Except ApiError Unit × List SentRequest) :=
  match ct.requestHandler with
  | none => some (.error (.initError "tonie not properly initialized"), [])
  | some rh =>
    match commitTonie rh ct net with
    | none => none
    | some (_, req, res) => some (res, [req])

/-- Function Refresh: fails with an initialization error when the executor
back-reference is nil; otherwise re-fetches the tonie and overwrites the
thirteen listed fields in place, leaving `household` and `requestHandler`
untouched. -/
def Refresh (ct : CreativeTonie) (net : Except String HttpResponse)
    (decode : String → Option CreativeTonie) :
    Option (CreativeTonie × Except ApiError Unit) :=
  match ct.requestHandler with
  | none => some (ct, .error (.initError "tonie not properly initialized"))
  | some rh =>
    match refreshTonie rh ct net decode with
    | none => none
    | some (_, .error e) => some (ct, .error e)
    | some (_, .ok refreshed) =>
      some ({ ct with
                ID := refreshed.ID, Name := refreshed.Name, Live := refreshed.Live,
                Private := refreshed.Private, ImageURL := refreshed.ImageURL,
                TranscodingErrors := refreshed.TranscodingErrors,
                Transcoding := refreshed.Transcoding,
                SecondsPresent := refreshed.SecondsPresent,
                SecondsRemaining := refreshed.SecondsRemaining,
                ChaptersPresent := refreshed.ChaptersPresent,
                ChaptersRemaining := refreshed.ChaptersRemaining,
                Chapters := refreshed.Chapters,
                HouseholdID := refreshed.HouseholdID },
            .ok ())

/-! ## Operation sequences over one client (for the token lifecycle) -/

/-- One operation on a client, together with the external answers it will
consume. -/
inductive ClientOp where
  | opLogin (loginData : Login) (net : Except String HttpResponse)
      (decode : String → Option JWTToken)
  | opGet (url : String) (net : Except String HttpResponse) (decode : String → Option Json)
  | opPatch (url : String) (body : Json) (net : Except String HttpResponse)
  | opDisconnect (net : Except String HttpResponse)

/-- The handler state after one operation. -/
def stepHandler (rh : RequestHandler) (op : ClientOp) : RequestHandler :=
  match op with
  | .opLogin ld net decode => (login rh ld net decode).1
  | .opGet url net decode => (executeGetRequest rh url net decode).1
  | .opPatch url body net => (executePatchRequest rh url body net).1
  | .opDisconnect net => (disconnect rh net).1

/-- The handler state after a sequence of operations. -/
def runOps (rh : RequestHandler) (ops : List ClientOp) : RequestHandler :=
  ops.foldl stepHandler rh

/-- The token a successful login operation decodes (and stores); `none`
for a failed login and for every non-login operation. -/
def loginSuccessToken (op : ClientOp) : Option JWTToken :=
  match op with
  | .opLogin _ net decode =>
    (match net with
     | .ok resp => if resp.StatusCode = 200 then decode resp.Body else none
     | .error _ => none)
  | _ => none

/-! ## Concrete sample values used by the witnesses -/

def sampleToken : JWTToken :=
  { AccessToken := "abc123", ExpiresIn := 300, RefreshToken := "r",
    TokenType := "Bearer", Scope := "openid" }

def tokenOne : JWTToken :=
  { AccessToken := "t1", ExpiresIn := 0, RefreshToken := "", TokenType := "", Scope := "" }

def tokenTwo : JWTToken :=
  { AccessToken := "t2", ExpiresIn := 0, RefreshToken := "", TokenType := "", Scope := "" }

def sampleRH : RequestHandler := { jwtToken := some sampleToken }

def sampleChapterA : Chapter :=
  { ID := "c1", File := "f1", Title := "A", Seconds := 10, Transcoding := false }

def sampleChapterB : Chapter :=
  { ID := "c2", File := "f2", Title := "B", Seconds := 20, Transcoding := true }

def sampleHousehold : Household :=
  { ID := "h1", Name := "Home", Image := "img", ForeignCreativeTonieContent := false,
    Access := "owner", CanLeave := true, OwnerName := "Own" }

def sampleTonie : CreativeTonie :=
  { ID := "t1", Name := "Tonie", Live := false, Private := true, ImageURL := "url",
    TranscodingErrors := [], Transcoding := false, SecondsPresent := 100,
    SecondsRemaining := 200, ChaptersPresent := 2, ChaptersRemaining := 88,
    Chapters := [sampleChapterA, sampleChapterB], HouseholdID := "h1",
    household := some sampleHousehold,
    requestHandler := some sampleRH }

def sampleFields : FieldsBean :=
  { Key := "k1", Policy := "pol", XAmzAlgorithm := "alg", XAmzCredential := "cred",
    XAmzDate := "date", XAmzSignature := "sig", XAmzSecurityToken := "sectok" }

def sampleBean : AmazonBean :=
  { FileID := "f1", Request := { URL := "u", Fields := sampleFields } }

/-- An upload environment in which every external step succeeds. -/
def sampleOkEnv : UploadEnv :=
  { credentialNet := .ok { StatusCode := 200, Body := "ticket" },
    decodeBean := fun _ => some sampleBean,
    openFile := fun _ => .ok [7, 8],
    s3Net := .ok { StatusCode := 204, Body := "" } }

/-! ## Helper lemmas -/

lemma countP_filter_ne_length (l : List Chapter) (i : String) :
    (l.filter fun c => c.ID != i).length = l.length - l.countP (fun c => c.ID == i) := by
  induction l with
  | nil => rfl
  | cons c l ih =>
    have hle : l.countP (fun c => c.ID == i) ≤ l.length := l.countP_le_length _
    by_cases h : c.ID = i <;> simp [List.filter_cons, List.countP_cons, h, ih]
    all_goals omega

lemma executeGetRequest_req (rh : RequestHandler) (url : String)
    (net : Except String HttpResponse) (d : String → Option α) :
    (executeGetRequest rh url net d).2.1 = getRequest rh url := by
  rcases net with m | resp
  · rfl
  · by_cases h : resp.StatusCode ≠ 200
    · simp [executeGetRequest, h]
    · rcases hd : d resp.Body with _ | a <;> simp [executeGetRequest, h, hd]

lemma executeGetRequest_state (rh : RequestHandler) (url : String)
    (net : Except String HttpResponse) (d : String → Option α) :
    (executeGetRequest rh url net d).1 = rh := by
  rcases net with m | resp
  · rfl
  · by_cases h : resp.StatusCode ≠ 200
    · simp [executeGetRequest, h]
    · rcases hd : d resp.Body with _ | a <;> simp [executeGetRequest, h, hd]

lemma executePatchRequest_req (rh : RequestHandler) (url : String) (body : Json)
    (net : Except String HttpResponse) :
    (executePatchRequest rh url body net).2.1 = patchRequest rh url body := by
  rcases net with m | resp
  · rfl
  · by_cases h : resp.StatusCode ≠ 200 ∧ resp.StatusCode ≠ 204 <;>
      simp [executePatchRequest, h]

lemma executePatchRequest_state (rh : RequestHandler) (url : String) (body : Json)
    (net : Except String HttpResponse) :
    (executePatchRequest rh url body net).1 = rh := by
  rcases net with m | resp
  · rfl
  · by_cases h : resp.StatusCode ≠ 200 ∧ resp.StatusCode ≠ 204 <;>
      simp [executePatchRequest, h]

lemma disconnect_req (rh : RequestHandler) (net : Except String HttpResponse) :
    (disconnect rh net).2.1 = disconnectRequest rh := by
  rcases net with m | resp
  · rfl
  · by_cases h : resp.StatusCode ≠ 200 ∧ resp.StatusCode ≠ 204 <;> simp [disconnect, h]

lemma disconnect_state (rh : RequestHandler) (net : Except String HttpResponse) :
    (disconnect rh net).1 = rh := by
  rcases net with m | resp
  · rfl
  · by_cases h : resp.StatusCode ≠ 200 ∧ resp.StatusCode ≠ 204 <;> simp [disconnect, h]

/-! ## Claim theorems -/

/-- C8: `DeleteChapter` removes exactly the chapters sharing the given
chapter's identifier (the length drops by their count) and issues no
network request; `FindChapterByTitle` is a linear scan returning the first
chapter whose title is exactly equal to the query, returning `none` (for
every sequence, including the empty one) exactly when no chapter has that
title; in particular, after a deletion it returns `none` for the deleted
title whenever no remaining chapter carries it. -/
theorem deleteChapter_findChapter_spec (ct : CreativeTonie) (chapter : Chapter)
    (title : String) :
    ((DeleteChapter ct chapter).1.Chapters.length
        = ct.Chapters.length - ct.Chapters.countP (fun c => c.ID == chapter.ID))
    ∧ (DeleteChapter ct chapter).2 = []
    ∧ (FindChapterByTitle ct title = none ↔ ∀ c ∈ ct.Chapters, c.Title ≠ title)
    ∧ (∀ c, FindChapterByTitle ct title = some c →
          c.Title = title ∧
          ∃ l1 l2, ct.Chapters = l1 ++ c :: l2 ∧ ∀ b ∈ l1, b.Title ≠ title)
    ∧ ((∀ c ∈ (DeleteChapter ct chapter).1.Chapters, c.Title ≠ chapter.Title) →
          FindChapterByTitle (DeleteChapter ct chapter).1 chapter.Title = none) := by
  refine ⟨countP_filter_ne_length ct.Chapters chapter.ID, rfl, ?_, ?_, ?_⟩
  · simp [FindChapterByTitle, List.find?_eq_none]
  · intro c hc
    rw [FindChapterByTitle, List.find?_eq_some] at hc
    obtain ⟨hp, as, bs, heq, hall⟩ := hc
    refine ⟨by simpa using hp, as, bs, heq, ?_⟩
    intro b hb
    have := hall b hb
    simpa using this
  · intro hnone
    rw [FindChapterByTitle, List.find?_eq_none]
    intro c hc
    simpa using hnone c hc

/-- C9: upload step 2 builds the multipart form with the ticket's seven
signed-policy fields in the fixed order key, x-amz-algorithm,
x-amz-credential, x-amz-date, policy, x-amz-signature,
x-amz-security-token, followed by the file content under a form field
named "file"; whenever `uploadFile` reaches step 2, the last request it
hands to the transport is the object-storage POST carrying exactly this
form. -/
theorem upload_multipart_field_order (fields : FieldsBean) (content : List Nat)
    (rh : RequestHandler) (tok : JWTToken) (tonie : CreativeTonie)
    (filePath title : String) (env : UploadEnv) (resp : HttpResponse)
    (bean : AmazonBean) (fc : List Nat)
    (res : Except ApiError Unit) (tonie' : CreativeTonie) (reqs : List SentRequest)
    (htok : rh.jwtToken = some tok)
    (hnet : env.credentialNet = .ok resp) (h200 : resp.StatusCode = 200)
    (hdec : env.decodeBean resp.Body = some bean)
    (hopen : env.openFile filePath = .ok fc)
    (hup : uploadFile rh tonie filePath title env = some (res, tonie', reqs)) :
    ((buildUploadForm fields content).formFields =
      [("key", fields.Key),
       ("x-amz-algorithm", fields.XAmzAlgorithm),
       ("x-amz-credential", fields.XAmzCredential),
       ("x-amz-date", fields.XAmzDate),
       ("policy", fields.Policy),
       ("x-amz-signature", fields.XAmzSignature),
       ("x-amz-security-token", fields.XAmzSecurityToken)])
    ∧ (buildUploadForm fields content).filePartName = "file"
    ∧ (buildUploadForm fields content).filePartFileName = fields.Key
    ∧ (buildUploadForm fields content).filePartContent = content
    ∧ reqs.getLast? = some (s3Request bean fc) := by
  refine ⟨rfl, rfl, rfl, rfl, ?_⟩
  rw [uploadFile, htok] at hup
  simp only [hnet, h200, hdec, hopen] at hup
  simp at hup
  rcases hnet2 : env.s3Net with m | s3resp
  · simp [hnet2] at hup
    obtain ⟨-, -, h3⟩ := hup
    simp [← h3]
  · simp [hnet2] at hup
    by_cases hs : s3resp.StatusCode ≠ 204 ∧ s3resp.StatusCode ≠ 200
    · simp [hs] at hup
      obtain ⟨-, -, h3⟩ := hup
      simp [← h3]
    · simp [hs] at hup
      obtain ⟨-, -, h3⟩ := hup
      simp [← h3]

/-- C8 witness: concrete run of the theorem — deleting chapter "c1"
(title "A") from the sample tonie leaves no chapter titled "A", so the
subsequent find returns `none`. -/
theorem deleteChapter_findChapter_spec_witness :
    FindChapterByTitle (DeleteChapter sampleTonie sampleChapterA).1 sampleChapterA.Title
      = none := by
  have h := deleteChapter_findChapter_spec sampleTonie sampleChapterA sampleChapterA.Title
  exact h.2.2.2.2 (by decide)

/-- C9 witness: concrete successful upload run; the form field of the build
is "file" and the last request handed to the transport is the
object-storage POST with the built form. -/
theorem upload_multipart_field_order_witness :
    (buildUploadForm sampleFields [7, 8]).filePartName = "file"
    ∧ ([credentialRequest sampleToken, s3Request sampleBean [7, 8]].getLast?
        = some (s3Request sampleBean [7, 8])) := by
  have h := upload_multipart_field_order sampleFields [7, 8] sampleRH sampleToken
    sampleTonie "p" "T" sampleOkEnv { StatusCode := 200, Body := "ticket" } sampleBean [7, 8]
    (.ok ()) { sampleTonie with Chapters := sampleTonie.Chapters ++
        [{ ID := "k1", File := "f1", Title := "T", Seconds := 0, Transcoding := false }] }
    [credentialRequest sampleToken, s3Request sampleBean [7, 8]]
    rfl rfl rfl rfl rfl rfl
  exact ⟨h.2.1, h.2.2.2.2⟩

/-- C1: whenever `uploadFile` returns (rather than panics) and either
step 1 (credential request) or step 2 (file open or object-storage POST)
failed, the result is an error and the tonie's chapter sequence is exactly
what it was before the call; more generally, on every error return the
chapter sequence is unchanged. -/
theorem uploadFile_failure_leaves_chapters
    (rh : RequestHandler) (tonie : CreativeTonie) (filePath title : String)
    (env : UploadEnv) (res : Except ApiError Unit) (tonie' : CreativeTonie)
    (reqs : List SentRequest)
    (hup : uploadFile rh tonie filePath title env = some (res, tonie', reqs)) :
    (exIsErr res = true → tonie'.Chapters = tonie.Chapters)
    ∧ (¬ (step1Ok env = true ∧ step2Ok env filePath = true) →
        exIsErr res = true ∧ tonie'.Chapters = tonie.Chapters) := by
  rcases htok : rh.jwtToken with _ | tok
  · rw [uploadFile, htok] at hup
    simp at hup
  simp only [uploadFile, htok] at hup
  rcases hc : env.credentialNet with m | resp <;> simp only [hc] at hup
  · simp only [Option.some.injEq, Prod.mk.injEq] at hup
    obtain ⟨h1, h2, -⟩ := hup
    subst h1; subst h2
    exact ⟨fun _ => rfl, fun _ => ⟨rfl, rfl⟩⟩
  by_cases hs : resp.StatusCode ≠ 200
  · rw [if_pos hs] at hup
    simp only [Option.some.injEq, Prod.mk.injEq] at hup
    obtain ⟨h1, h2, -⟩ := hup
    subst h1; subst h2
    exact ⟨fun _ => rfl, fun _ => ⟨rfl, rfl⟩⟩
  rw [if_neg hs] at hup
  rcases hd : env.decodeBean resp.Body with _ | bean <;> simp only [hd] at hup
  · simp only [Option.some.injEq, Prod.mk.injEq] at hup
    obtain ⟨h1, h2, -⟩ := hup
    subst h1; subst h2
    exact ⟨fun _ => rfl, fun _ => ⟨rfl, rfl⟩⟩
  rcases ho : env.openFile filePath with m | fc <;> simp only [ho] at hup
  · simp only [Option.some.injEq, Prod.mk.injEq] at hup
    obtain ⟨h1, h2, -⟩ := hup
    subst h1; subst h2
    exact ⟨fun _ => rfl, fun _ => ⟨rfl, rfl⟩⟩
  rcases h3 : env.s3Net with m | s3resp <;> simp only [h3] at hup
  · simp only [Option.some.injEq, Prod.mk.injEq] at hup
    obtain ⟨h1, h2, -⟩ := hup
    subst h1; subst h2
    exact ⟨fun _ => rfl, fun _ => ⟨rfl, rfl⟩⟩
  by_cases hs3 : s3resp.StatusCode ≠ 204 ∧ s3resp.StatusCode ≠ 200
  · rw [if_pos hs3] at hup
    simp only [Option.some.injEq, Prod.mk.injEq] at hup
    obtain ⟨h1, h2, -⟩ := hup
    subst h1; subst h2
    exact ⟨fun _ => rfl, fun _ => ⟨rfl, rfl⟩⟩
  · rw [if_neg hs3] at hup
    simp only [Option.some.injEq, Prod.mk.injEq] at hup
    obtain ⟨h1, h2, -⟩ := hup
    subst h1
    constructor
    · intro habs
      simp [exIsErr] at habs
    · intro hno
      exfalso
      apply hno
      constructor
      · push_neg at hs
        simp [step1Ok, hc, hs, hd]
      · push_neg at hs3
        rcases eq_or_ne s3resp.StatusCode 204 with h204 | h204
        · simp [step2Ok, ho, h3, h204]
        · have h200b := hs3 h204
          simp [step2Ok, ho, h3, h200b]

/-- C1 witness: concrete failing run (the credential endpoint answers 500):
the call errors and the chapter sequence is unchanged. -/
theorem uploadFile_failure_leaves_chapters_witness :
    exIsErr (Except.error (α := Unit)
        (ApiError.statusError "upload request failed with status" 500 "boom")) = true
    ∧ sampleTonie.Chapters = sampleTonie.Chapters := by
  have h := uploadFile_failure_leaves_chapters sampleRH sampleTonie "p" "T"
    { sampleOkEnv with credentialNet := .ok { StatusCode := 500, Body := "boom" } }
    (.error (.statusError "upload request failed with status" 500 "boom"))
    sampleTonie [credentialRequest sampleToken] rfl
  exact ⟨rfl, (h.2 (by decide)).2⟩

/-- C2: when every step succeeds (credential request answers 200 with a
decodable ticket, the file opens, and the object-storage POST answers 200
or 204), `uploadFile` appends exactly one chapter at the end — id the
ticket's key, file the ticket's fileId, title the caller's title — leaving
the existing chapters as an unchanged front segment, and the only two
requests issued are POSTs (no PATCH/commit request). -/
theorem uploadFile_success_appends_chapter
    (rh : RequestHandler) (tok : JWTToken) (tonie : CreativeTonie)
    (filePath title : String) (env : UploadEnv) (resp s3resp : HttpResponse)
    (bean : AmazonBean) (fc : List Nat)
    (htok : rh.jwtToken = some tok)
    (hnet : env.credentialNet = .ok resp) (h200 : resp.StatusCode = 200)
    (hdec : env.decodeBean resp.Body = some bean)
    (hopen : env.openFile filePath = .ok fc)
    (hs3 : env.s3Net = .ok s3resp)
    (hst : s3resp.StatusCode = 200 ∨ s3resp.StatusCode = 204) :
    uploadFile rh tonie filePath title env
      = some (.ok (),
              { tonie with Chapters := tonie.Chapters ++
                  [{ ID := bean.Request.Fields.Key, File := bean.FileID,
                     Title := title, Seconds := 0, Transcoding := false }] },
              [credentialRequest tok, s3Request bean fc])
    ∧ (credentialRequest tok).method = .post
    ∧ (s3Request bean fc).method = .post := by
  refine ⟨?_, rfl, rfl⟩
  rw [uploadFile, htok]
  simp only [hnet, hdec, hopen, hs3, h200]
  have hcond : ¬(s3resp.StatusCode ≠ 204 ∧ s3resp.StatusCode ≠ 200) := by
    rcases hst with h | h <;> simp [h]
  simp [hcond]

/-- C2 witness: concrete fully-successful run appends the chapter
(ticket key "k1", fileId "f1", the given title) at the end. -/
theorem uploadFile_success_appends_chapter_witness :
    uploadFile sampleRH sampleTonie "p" "T" sampleOkEnv
      = some (.ok (),
              { sampleTonie with Chapters := sampleTonie.Chapters ++
                  [{ ID := "k1", File := "f1", Title := "T",
                     Seconds := 0, Transcoding := false }] },
              [credentialRequest sampleToken, s3Request sampleBean [7, 8]]) := by
  have h := uploadFile_success_appends_chapter sampleRH sampleToken sampleTonie "p" "T"
    sampleOkEnv { StatusCode := 200, Body := "ticket" } { StatusCode := 204, Body := "" }
    sampleBean [7, 8] rfl rfl rfl rfl rfl rfl (Or.inr rfl)
  exact h.1

/-- C10: on a Creative-Tonie whose executor reference is wired but whose
client holds no token, `UploadFile` does not return an error value — the
upload's step 1 dereferences the stored token unconditionally, so the call
crashes (modelled as `none`); by contrast GET, PATCH and disconnect attach
the bearer header only when a token is present and never crash: with no
token their requests simply carry no Authorization header. -/
theorem uploadFile_nil_token_panics
    (ct : CreativeTonie) (title filePath : String) (env : UploadEnv)
    (url : String) (body : Json) (net : Except String HttpResponse)
    (decode : String → Option Json)
    (hw : ct.requestHandler = some { jwtToken := none }) :
    UploadFile ct title filePath env = none
    ∧ (executeGetRequest { jwtToken := none } url net decode).2.1.headers = []
    ∧ (executePatchRequest { jwtToken := none } url body net).2.1.headers
        = [("Content-Type", contentTypeJSON)]
    ∧ (disconnect { jwtToken := none } net).2.1.headers = [] := by
  refine ⟨?_, ?_, ?_, ?_⟩
  · simp [UploadFile, hw, uploadFile]
  · rw [executeGetRequest_req]; rfl
  · rw [executePatchRequest_req]; rfl
  · rw [disconnect_req]; rfl

/-- C10 witness: the concrete wired-but-tokenless tonie crashes on upload. -/
theorem uploadFile_nil_token_panics_witness :
    UploadFile { sampleTonie with requestHandler := some { jwtToken := none } }
      "T" "p" sampleOkEnv = none := by
  have h := uploadFile_nil_token_panics
    { sampleTonie with requestHandler := some { jwtToken := none } }
    "T" "p" sampleOkEnv "u" (Json.str "x")
    (Except.ok { StatusCode := 200, Body := "" })
    (fun _ => (none : Option Json)) rfl
  exact h.1

/-- C4: a successful login (200 response whose body decodes to a token)
stores exactly the decoded token, and every subsequent authenticated GET
or PATCH on that client carries the header value "Bearer " concatenated
with that token's access-token string, unchanged. -/
theorem login_stores_token_verbatim
    (rh : RequestHandler) (ld : Login) (resp : HttpResponse)
    (decode : String → Option JWTToken) (tok : JWTToken)
    (url : String) (net2 : Except String HttpResponse)
    (gdec : String → Option Json) (body : Json)
    (h200 : resp.StatusCode = 200) (hdec : decode resp.Body = some tok) :
    (login rh ld (.ok resp) decode).1.jwtToken = some tok
    ∧ (login rh ld (.ok resp) decode).2.2 = .ok ()
    ∧ (executeGetRequest (login rh ld (.ok resp) decode).1 url net2 gdec).2.1.headers
        = [("Authorization", "Bearer " ++ tok.AccessToken)]
    ∧ (executePatchRequest (login rh ld (.ok resp) decode).1 url body net2).2.1.headers
        = [("Content-Type", contentTypeJSON),
           ("Authorization", "Bearer " ++ tok.AccessToken)] := by
  have hst : (login rh ld (.ok resp) decode).1 = { rh with jwtToken := some tok } := by
    simp [login, h200, hdec]
  refine ⟨by rw [hst], ?_, ?_, ?_⟩
  · simp [login, h200, hdec]
  · rw [executeGetRequest_req, hst]; rfl
  · rw [executePatchRequest_req, hst]; rfl

/-- C4 witness: a concrete successful login stores the decoded sample
token, and a subsequent GET request carries "Bearer abc123". -/
theorem login_stores_token_verbatim_witness :
    (login { jwtToken := none } { Email := "a@b.com", Password := "pw" }
        (.ok { StatusCode := 200, Body := "tk" }) (fun _ => some sampleToken)).1.jwtToken
      = some sampleToken
    ∧ (executeGetRequest
        (login { jwtToken := none } { Email := "a@b.com", Password := "pw" }
          (.ok { StatusCode := 200, Body := "tk" }) (fun _ => some sampleToken)).1
        "u" (.ok { StatusCode := 200, Body := "x" })
        (fun _ => some (Json.str "x"))).2.1.headers
      = [("Authorization", "Bearer " ++ sampleToken.AccessToken)] := by
  have h := login_stores_token_verbatim { jwtToken := none }
    { Email := "a@b.com", Password := "pw" } { StatusCode := 200, Body := "tk" }
    (fun _ => some sampleToken) sampleToken "u"
    (.ok { StatusCode := 200, Body := "x" }) (fun _ => some (Json.str "x")) (Json.str "b")
    rfl rfl
  exact ⟨h.1, h.2.2.1⟩

/-- C5 counterexample: an authenticated GET whose response has status 200
but whose body fails to decode returns an error, refuting "a GET returns
an error exactly when the response status is not 200". -/
theorem get_error_despite_status_200_cex :
    exIsErr (executeGetRequest { jwtToken := none } "u"
        (.ok { StatusCode := 200, Body := "x" })
        (fun _ => (none : Option Json))).2.2 = true := rfl

/-- C5 (amended): for a received response, a GET errors exactly when the
status is not 200 or the 200-body fails to decode; a PATCH errors exactly
when the status is neither 200 nor 204; a non-2xx error is the status
error carrying the numeric status, whose rendered message ends with the
raw response body; on a non-200 GET no decoding is attempted (the result
does not depend on the decoder); neither executor mutates handler state. -/
theorem executeRequest_error_characterization
    (rh : RequestHandler) (url : String) (resp : HttpResponse)
    (decode d1 d2 : String → Option Json) (body : Json) :
    (exIsErr (executeGetRequest rh url (.ok resp) decode).2.2
        = (!(resp.StatusCode == 200) || (decode resp.Body).isNone))
    ∧ (resp.StatusCode ≠ 200 →
        (executeGetRequest rh url (.ok resp) decode).2.2
          = .error (.statusError "request failed with status" resp.StatusCode resp.Body))
    ∧ (resp.StatusCode ≠ 200 →
        executeGetRequest rh url (.ok resp) d1 = executeGetRequest rh url (.ok resp) d2)
    ∧ (exIsErr (executePatchRequest rh url body (.ok resp)).2.2
        = (!(resp.StatusCode == 200) && !(resp.StatusCode == 204)))
    ∧ (resp.StatusCode ≠ 200 → resp.StatusCode ≠ 204 →
        (executePatchRequest rh url body (.ok resp)).2.2
          = .error (.statusError "request failed with status" resp.StatusCode resp.Body))
    ∧ ((executeGetRequest rh url (.ok resp) decode).1 = rh)
    ∧ ((executePatchRequest rh url body (.ok resp)).1 = rh)
    ∧ (ApiError.message (.statusError "request failed with status" resp.StatusCode resp.Body)
        = "request failed with status" ++ " " ++ toString resp.StatusCode ++ ": " ++ resp.Body) := by
  refine ⟨?_, ?_, ?_, ?_, ?_, executeGetRequest_state .., executePatchRequest_state .., rfl⟩
  · by_cases h : resp.StatusCode = 200
    · rcases hd : decode resp.Body with _ | a <;> simp [executeGetRequest, exIsErr, h, hd]
    · simp [executeGetRequest, exIsErr, h]
  · intro h
    simp [executeGetRequest, h]
  · intro h
    simp [executeGetRequest, h]
  · by_cases h : resp.StatusCode ≠ 200 ∧ resp.StatusCode ≠ 204
    · simp only [executePatchRequest, if_pos h, exIsErr]
      obtain ⟨h1, h2⟩ := h
      simp [h1, h2]
    · simp only [executePatchRequest, if_neg h, exIsErr]
      rw [Decidable.not_and_iff_or_not, not_ne_iff, not_ne_iff] at h
      rcases h with h | h <;> simp [h]
  · intro h1 h2
    simp [executePatchRequest, h1, h2]

/-- C5 witness: a concrete 404 GET errors with the status error carrying
404 and the body. -/
theorem executeRequest_error_characterization_witness :
    (executeGetRequest sampleRH "u" (.ok { StatusCode := 404, Body := "nope" })
        (fun _ => some (Json.str "x"))).2.2
      = .error (.statusError "request failed with status" 404 "nope") := by
  have h := executeRequest_error_characterization sampleRH "u"
    { StatusCode := 404, Body := "nope" } (fun _ => some (Json.str "x"))
    (fun _ => (none : Option Json)) (fun _ => (none : Option Json)) (Json.str "b")
  exact h.2.1 (by decide)

lemma login_state_token (rh : RequestHandler) (ld : Login)
    (net : Except String HttpResponse) (decode : String → Option JWTToken) :
    (login rh ld net decode).1.jwtToken
      = Option.elim (loginSuccessToken (.opLogin ld net decode)) rh.jwtToken some := by
  rcases net with m | resp
  · rfl
  · by_cases h : resp.StatusCode = 200
    · rcases hd : decode resp.Body with _ | t <;> simp [login, loginSuccessToken, h, hd]
    · simp [login, loginSuccessToken, h]

lemma stepHandler_token (rh : RequestHandler) (op : ClientOp) :
    (stepHandler rh op).jwtToken
      = Option.elim (loginSuccessToken op) rh.jwtToken some := by
  rcases op with ⟨ld, net, d⟩ | ⟨url, net, d⟩ | ⟨url, b, net⟩ | net
  · exact login_state_token rh ld net d
  · simp [stepHandler, executeGetRequest_state, loginSuccessToken]
  · simp [stepHandler, executePatchRequest_state, loginSuccessToken]
  · simp [stepHandler, disconnect_state, loginSuccessToken]

/-- C3 (amended): the stored token is replaced at every successful login
(never by any other operation): after any sequence of operations on one
client, the stored token is the one decoded from the last successful
login, or the initial token when no login in the sequence succeeded; GET,
PATCH and disconnect never change the handler state. -/
theorem token_equals_last_successful_login (rh : RequestHandler) (ops : List ClientOp) :
    ((runOps rh ops).jwtToken
        = Option.elim ((ops.filterMap loginSuccessToken).getLast?) rh.jwtToken some)
    ∧ (∀ url net d, stepHandler rh (.opGet url net d) = rh)
    ∧ (∀ url body net, stepHandler rh (.opPatch url body net) = rh)
    ∧ (∀ net, stepHandler rh (.opDisconnect net) = rh) := by
  refine ⟨?_, fun url net d => executeGetRequest_state .., fun url body net => executePatchRequest_state ..,
    fun net => disconnect_state ..⟩
  induction ops generalizing rh with
  | nil => rfl
  | cons op ops ih =>
    have hstep := stepHandler_token rh op
    show (runOps (stepHandler rh op) ops).jwtToken = _
    rw [ih (stepHandler rh op), List.filterMap_cons]
    cases hl : loginSuccessToken op with
    | none =>
      rw [hl] at hstep
      simp [hstep]
    | some t =>
      rw [hl] at hstep
      rw [List.getLast?_cons]
      cases hrest : (ops.filterMap loginSuccessToken).getLast? <;> simp [hrest, hstep]

/-- A first login operation whose 200 response decodes to `tokenOne`. -/
def loginOpOne : ClientOp :=
  .opLogin { Email := "a@b.com", Password := "pw" }
    (.ok { StatusCode := 200, Body := "one" }) (fun _ => some tokenOne)

/-- A second login operation whose 200 response decodes to `tokenTwo`. -/
def loginOpTwo : ClientOp :=
  .opLogin { Email := "a@b.com", Password := "pw" }
    (.ok { StatusCode := 200, Body := "two" }) (fun _ => some tokenTwo)

/-- C3 counterexample: two successful logins decoding different tokens
leave the second token stored, not the token from the first successful
login — `login` overwrites the stored token unconditionally on success. -/
theorem second_login_overwrites_token_cex :
    (runOps { jwtToken := none } [loginOpOne, loginOpTwo]).jwtToken = some tokenTwo
    ∧ some tokenTwo ≠ some tokenOne := by
  refine ⟨rfl, ?_⟩
  decide

/-- C6: committing a Creative-Tonie with a wired executor PATCHes the
serialized entity to the per-entity endpoint; the serialized object's
"name" field is the current in-memory name, and its field list is exactly
the thirteen tagged fields — the household and executor back-references
are never serialized. -/
theorem commit_serializes_without_backrefs
    (ct : CreativeTonie) (rh : RequestHandler) (h : Household)
    (net : Except String HttpResponse)
    (res : Except ApiError Unit) (reqs : List SentRequest)
    (hw : ct.requestHandler = some rh) (hh : ct.household = some h)
    (hc : Commit ct net = some (res, reqs)) :
    reqs = [patchRequest rh (creativeTonie h.ID ct.ID) (marshalTonie ct)]
    ∧ (patchRequest rh (creativeTonie h.ID ct.ID) (marshalTonie ct)).method = .patch
    ∧ (patchRequest rh (creativeTonie h.ID ct.ID) (marshalTonie ct)).body
        = .json (marshalTonie ct)
    ∧ jsonFieldNames (marshalTonie ct)
        = ["id", "name", "live", "private", "imageUrl", "transcodingErrors",
           "transcoding", "secondsPresent", "secondsRemaining", "chaptersPresent",
           "chaptersRemaining", "chapters", "householdId"]
    ∧ jsonField (marshalTonie ct) "name" = some (.str ct.Name) := by
  refine ⟨?_, rfl, rfl, rfl, rfl⟩
  simp only [Commit, hw, commitTonie, hh] at hc
  rcases net with m | resp
  · simp only [executePatchRequest, Option.some.injEq, Prod.mk.injEq] at hc
    exact hc.2.symm
  · by_cases hs : resp.StatusCode ≠ 200 ∧ resp.StatusCode ≠ 204
    · simp only [executePatchRequest, if_pos hs, Option.some.injEq, Prod.mk.injEq] at hc
      exact hc.2.symm
    · simp only [executePatchRequest, if_neg hs, Option.some.injEq, Prod.mk.injEq] at hc
      exact hc.2.symm

/-- C6 witness: the serialized sample tonie has exactly the thirteen
tagged field names and its "name" field is the in-memory name. -/
theorem commit_serializes_without_backrefs_witness :
    jsonFieldNames (marshalTonie sampleTonie)
      = ["id", "name", "live", "private", "imageUrl", "transcodingErrors",
         "transcoding", "secondsPresent", "secondsRemaining", "chaptersPresent",
         "chaptersRemaining", "chapters", "householdId"]
    ∧ jsonField (marshalTonie sampleTonie) "name" = some (.str "Tonie") := by
  have h := commit_serializes_without_backrefs sampleTonie sampleRH sampleHousehold
    (.ok { StatusCode := 204, Body := "" }) (.ok ())
    [patchRequest sampleRH (creativeTonie "h1" "t1") (marshalTonie sampleTonie)]
    rfl rfl rfl
  exact ⟨h.2.2.2.1, h.2.2.2.2⟩

/-- C7: a successful `Refresh` overwrites in place exactly the thirteen
listed fields of the caller's instance with the re-fetched values, and
leaves the household and executor back-references unchanged. -/
theorem refresh_overwrites_fields_preserves_backrefs
    (ct : CreativeTonie) (rh : RequestHandler) (h : Household)
    (decode : String → Option CreativeTonie) (resp : HttpResponse) (r : CreativeTonie)
    (ct' : CreativeTonie) (res : Except ApiError Unit)
    (hw : ct.requestHandler = some rh) (hh : ct.household = some h)
    (h200 : resp.StatusCode = 200) (hdec : decode resp.Body = some r)
    (hr : Refresh ct (.ok resp) decode = some (ct', res)) :
    res = .ok ()
    ∧ ct'.ID = r.ID ∧ ct'.Name = r.Name ∧ ct'.Live = r.Live ∧ ct'.Private = r.Private
    ∧ ct'.ImageURL = r.ImageURL ∧ ct'.TranscodingErrors = r.TranscodingErrors
    ∧ ct'.Transcoding = r.Transcoding ∧ ct'.SecondsPresent = r.SecondsPresent
    ∧ ct'.SecondsRemaining = r.SecondsRemaining ∧ ct'.ChaptersPresent = r.ChaptersPresent
    ∧ ct'.ChaptersRemaining = r.ChaptersRemaining ∧ ct'.Chapters = r.Chapters
    ∧ ct'.HouseholdID = r.HouseholdID
    ∧ ct'.household = ct.household ∧ ct'.requestHandler = ct.requestHandler := by
  simp only [Refresh, hw, refreshTonie, hh, executeGetRequest, h200, hdec] at hr
  simp only [ne_eq, not_true_eq_false, if_false, reduceIte, Option.some.injEq,
    Prod.mk.injEq] at hr
  obtain ⟨h1, h2⟩ := hr
  subst h1
  subst h2
  exact ⟨rfl, rfl, rfl, rfl, rfl, rfl, rfl, rfl, rfl, rfl, rfl, rfl, rfl, rfl,
    hh.symm, hw.symm⟩

/-- The tonie decoded by the sample refresh response. -/
def sampleRefreshed : CreativeTonie :=
  { ID := "t1", Name := "NewName", Live := true, Private := false, ImageURL := "url2",
    TranscodingErrors := ["e"], Transcoding := true, SecondsPresent := 50,
    SecondsRemaining := 250, ChaptersPresent := 1, ChaptersRemaining := 89,
    Chapters := [sampleChapterB], HouseholdID := "h1",
    household := none, requestHandler := none }

/-- The sample tonie after the sample refresh. -/
def sampleRefreshResult : CreativeTonie :=
  { sampleTonie with
      ID := "t1", Name := "NewName", Live := true, Private := false, ImageURL := "url2",
      TranscodingErrors := ["e"], Transcoding := true, SecondsPresent := 50,
      SecondsRemaining := 250, ChaptersPresent := 1, ChaptersRemaining := 89,
      Chapters := [sampleChapterB], HouseholdID := "h1" }

/-- C7 witness: a concrete successful refresh takes the re-fetched name
while keeping both back-references of the caller's instance. -/
theorem refresh_overwrites_fields_preserves_backrefs_witness :
    sampleRefreshResult.Name = sampleRefreshed.Name
    ∧ sampleRefreshResult.household = sampleTonie.household
    ∧ sampleRefreshResult.requestHandler = sampleTonie.requestHandler := by
  have h := refresh_overwrites_fields_preserves_backrefs sampleTonie sampleRH
    sampleHousehold (fun _ => some sampleRefreshed) { StatusCode := 200, Body := "fresh" }
    sampleRefreshed sampleRefreshResult (.ok ()) rfl rfl rfl rfl rfl
  obtain ⟨-, -, hName, -, -, -, -, -, -, -, -, -, -, -, hHouse, hReq⟩ := h
  exact ⟨hName, hHouse, hReq⟩

end TonieboxAPI
